import Mathlib

/-!
Verification of the ALVR streaming-server core (shallow embedding).

The definitions below are translated from the C++ sources:
  * `alvr_server.cpp` — driver provider: haptics shaping in `RunFrame`,
    the Rust-facing entry points (`SetTracking`, `SetButton`, `SetBattery`,
    `SetOpenvrProperty`, `SetBitrateParameters`, `VideoErrorReportReceive`,
    `InitializeStreaming`, `DeinitializeStreaming`);
  * `OvrHMD.cpp` — `fixInvalidHaptics`, `OvrHmd::StartStreaming`,
    `OvrHmd::OnPoseUpdated`, `OvrHmd::~OvrHmd`;
  * `ffmpeg_helper.cpp` — `alvr::VkContext` initialization failure.

Machine floating-point values are modelled by exact rationals; fallible
C++ code (null-pointer dereference, thrown exception) is modelled with
`Except`.  Components whose implementation is outside the sampled sources
(`PoseHistory`, `ClientConnection`, `CEncoder`, the path-hash constants of
`Paths.h`) are modelled from the specification; each such definition says
so in its doc comment.
-/

namespace ALVR

/-! ### Haptics shaping (`DriverProvider::RunFrame`, alvr_server.cpp:100-138) -/

/-- Duration shaping from `RunFrame`: first the clamp
`if (duration < m_hapticsMinDuration * 0.5) duration = m_hapticsMinDuration * 0.5;`,
then the remap
`duration = pow(m_hapticsMinDuration, 2) * 0.25 / duration + duration;`.
`m` is the configured `m_hapticsMinDuration`, `d` the event's
`fDurationSeconds`. -/
def shapeHapticDuration (m d : ℚ) : ℚ :=
  let d1 := if d < m * (1/2) then m * (1/2) else d
  m ^ 2 * (1/4) / d1 + d1

/-- `fixInvalidHaptics` (OvrHMD.cpp): a legacy haptics pulse whose duration
field (`hapticFeedback[1]`) is 0 is given a 5 ms duration. -/
def fixInvalidHapticsDuration (d : ℚ) : ℚ :=
  if d = 0 then 5/1000 else d

/-- C1: for every input duration the clamp-then-remap computation of
`RunFrame` produces a duration at least the configured minimum
`m_hapticsMinDuration`; in particular this holds for a zero input
duration, and the legacy `fixInvalidHaptics` path assigns exactly the
5 ms floor to a zero-duration pulse. -/
theorem haptic_duration_floor (m d : ℚ) (hm : 0 < m) :
    m ≤ shapeHapticDuration m d ∧ fixInvalidHapticsDuration 0 = 5/1000 := by
  constructor
  · unfold shapeHapticDuration
    set d1 := if d < m * (1/2) then m * (1/2) else d with hd1
    have hge : m * (1/2) ≤ d1 := by
      rw [hd1]; split
      · exact le_refl _
      · next hnot => exact le_of_not_lt hnot
    have hpos : 0 < d1 := lt_of_lt_of_le (by linarith) hge
    have key : m ^ 2 * (1/4) / d1 + d1 - m = (d1 - m * (1/2)) ^ 2 / d1 := by
      field_simp
      ring
    have hnn : 0 ≤ (d1 - m * (1/2)) ^ 2 / d1 :=
      div_nonneg (sq_nonneg _) hpos.le
    linarith [key ▸ hnn]
  · rfl

/-- Witness for C1 at the concrete configuration `m = 5/1000` (the 5 ms
default) and a zero-duration input pulse. -/
theorem haptic_duration_floor_witness :
    (0 : ℚ) < 5/1000 ∧
      (5/1000 : ℚ) ≤ shapeHapticDuration (5/1000) 0 ∧
        fixInvalidHapticsDuration 0 = 5/1000 := by
  refine ⟨by norm_num, ?_, ?_⟩
  · exact (haptic_duration_floor (5/1000) 0 (by norm_num)).1
  · exact (haptic_duration_floor (5/1000) 0 (by norm_num)).2

/-! ### Session start / stop (`OvrHmd::StartStreaming`, OvrHMD.cpp:348-383;
`InitializeStreaming` / `DeinitializeStreaming`, alvr_server.cpp:204-215;
`OvrHmd::~OvrHmd`, OvrHMD.cpp:113-133) -/

/-- Observable state of the streaming components created by
`OvrHmd::StartStreaming`.  The creation counters record how many times a
`ClientConnection` listener was constructed, how many times a `CEncoder`
was constructed, and how many times `m_encoder->Start()` ran; the error
log records `Error(...)` calls. -/
structure StartState where
  streamComponentsInitialized : Bool
  listenerCreations : Nat
  encoderCreations : Nat
  encoderStarts : Nat
  errorLog : List String
deriving DecidableEq, Repr

/-- `OvrHmd::StartStreaming`, Windows branch.  The guard on
`m_streamComponentsInitialized` returns immediately when streaming is
already started.  Otherwise a listener is created, and when the device is
an HMD a `CEncoder` is created and `Initialize`d inside a `try`: an
initialization failure (`encoderInitFails`) is caught, logged with the
"Your GPU does not meet the requirements" message, and control falls
through to `m_encoder->Start()`; finally the initialized flag is set. -/
def startStreamingWin (isHmd encoderInitFails : Bool) (s : StartState) : StartState :=
  if s.streamComponentsInitialized then s
  else
    let s1 := { s with listenerCreations := s.listenerCreations + 1 }
    let s2 :=
      if isHmd then
        let sEnc := { s1 with encoderCreations := s1.encoderCreations + 1 }
        let sTry :=
          if encoderInitFails then
            { sEnc with errorLog :=
                "Your GPU does not meet the requirements for video encoding."
                  :: sEnc.errorLog }
          else sEnc
        { sTry with encoderStarts := sTry.encoderStarts + 1 }
      else s1
    { s2 with streamComponentsInitialized := true }

/-- `OvrHmd::StartStreaming`, Linux branch.  Same guard; the `CEncoder`
constructor acquires the ffmpeg/Vulkan context, whose initialization
failure raises (`alvr::VkContext::VkContext` throws
`AvException("failed to initialize ffmpeg", ret)` when
`av_hwdevice_ctx_init` fails, ffmpeg_helper.cpp:220-222) and no handler
exists in `StartStreaming`, so the exception propagates to the caller
and the initialized flag is never set. -/
def startStreamingLinux (isHmd encoderInitFails : Bool) (s : StartState) :
    Except String StartState :=
  if s.streamComponentsInitialized then .ok s
  else
    let s1 := { s with listenerCreations := s.listenerCreations + 1 }
    if isHmd then
      if encoderInitFails then .error "failed to initialize ffmpeg"
      else
        .ok { s1 with
                encoderCreations := s1.encoderCreations + 1,
                encoderStarts := s1.encoderStarts + 1,
                streamComponentsInitialized := true }
    else .ok { s1 with streamComponentsInitialized := true }

/-- Resources released by `OvrHmd::~OvrHmd`: each release is guarded
(`if (m_encoder) { m_encoder->Stop(); m_encoder.reset(); }`,
`if (m_Listener) { m_Listener.reset(); }`), and the counters record how
often each resource was stopped/released. -/
structure TeardownState where
  encoderAlive : Bool
  listenerAlive : Bool
  encoderStops : Nat
  encoderReleases : Nat
  listenerReleases : Nat
deriving DecidableEq, Repr

/-- `OvrHmd::~OvrHmd` teardown of the streaming components (the
platform-independent guards; the Windows-only `m_D3DRender` block has the
same guarded shape). -/
def hmdTeardown (t : TeardownState) : TeardownState :=
  let t1 :=
    if t.encoderAlive then
      { t with
          encoderStops := t.encoderStops + 1,
          encoderReleases := t.encoderReleases + 1,
          encoderAlive := false }
    else t
  if t1.listenerAlive then
    { t1 with
        listenerReleases := t1.listenerReleases + 1,
        listenerAlive := false }
  else t1

/-- `DeinitializeStreaming` (alvr_server.cpp:213-215): the body is empty
("nothing to do"). -/
def deinitializeStreaming (t : TeardownState) : TeardownState := t

/-- C3: session start and stop are idempotent.  Starting twice equals
starting once (Windows branch as a pure function, Linux branch through
`Except`); starting when already initialized changes nothing, so no
component is created twice; tearing down twice equals tearing down once,
so no resource is double-released; and the exported stop entry point is a
no-op. -/
theorem session_start_stop_idempotent (isHmd f : Bool) (s : StartState)
    (t : TeardownState) :
    startStreamingWin isHmd f (startStreamingWin isHmd f s) =
        startStreamingWin isHmd f s
      ∧ (s.streamComponentsInitialized = true → startStreamingWin isHmd f s = s)
      ∧ (∀ s', startStreamingLinux isHmd f s = .ok s' →
          startStreamingLinux isHmd f s' = .ok s')
      ∧ hmdTeardown (hmdTeardown t) = hmdTeardown t
      ∧ deinitializeStreaming (deinitializeStreaming t) = deinitializeStreaming t := by
  refine ⟨?_, ?_, ?_, ?_, rfl⟩
  · unfold startStreamingWin
    by_cases h : s.streamComponentsInitialized <;> simp [h]
  · intro h
    unfold startStreamingWin
    simp [h]
  · intro s' h
    unfold startStreamingLinux at h ⊢
    by_cases hinit : s.streamComponentsInitialized
    · simp [hinit] at h
      subst h
      simp [hinit]
    · simp [hinit] at h
      by_cases hh : isHmd
      · by_cases hf : f
        · simp [hh, hf] at h
        · simp [hh, hf] at h
          rw [← h]
          simp
      · simp [hh] at h
        rw [← h]
        simp
  · unfold hmdTeardown
    by_cases he : t.encoderAlive <;> by_cases hl : t.listenerAlive <;> simp [he, hl]

/-- Witness for C3 at a freshly-initialized (not yet started, fully
alive) concrete state. -/
theorem session_start_stop_idempotent_witness :
    (⟨false, 0, 0, 0, []⟩ : StartState).streamComponentsInitialized = false ∧
      startStreamingLinux true false ⟨false, 0, 0, 0, []⟩ =
          .ok ⟨true, 1, 1, 1, []⟩ ∧
        startStreamingLinux true false ⟨true, 1, 1, 1, []⟩ =
          .ok ⟨true, 1, 1, 1, []⟩ := by
  refine ⟨rfl, rfl, ?_⟩
  exact (session_start_stop_idempotent true false ⟨false, 0, 0, 0, []⟩
      ⟨true, true, 0, 0, 0⟩).2.2.1 ⟨true, 1, 1, 1, []⟩ rfl

/-- C4 counterexample: on the Windows branch of `OvrHmd::StartStreaming`,
with a fresh state and a failing encoder initialization, the failure is
logged but absorbed: `m_encoder->Start()` still runs and
`m_streamComponentsInitialized` is set, so streaming starts and no error
unwinds to the session-start caller — contradicting the claim that
encoder initialization failure always prevents streaming from starting
and unwinds rather than being absorbed. -/
theorem encoder_init_failure_absorbed_on_windows :
    (startStreamingWin true true ⟨false, 0, 0, 0, []⟩).streamComponentsInitialized
        = true
      ∧ (startStreamingWin true true ⟨false, 0, 0, 0, []⟩).encoderStarts = 1
      ∧ (startStreamingWin true true ⟨false, 0, 0, 0, []⟩).errorLog =
          ["Your GPU does not meet the requirements for video encoding."] := by
  refine ⟨rfl, rfl, rfl⟩

/-- C4 amended: on the Linux branch an encoder initialization failure is
fatal — the `alvr::VkContext` exception ("failed to initialize ffmpeg")
propagates uncaught to the session-start caller, the encoder is never
created or started and the streaming components are not marked
initialized; on the Windows branch the failure is surfaced to the
operator with a descriptive cause but then absorbed: the encoder is
started anyway and streaming setup completes. -/
theorem encoder_init_failure_fatal (s : StartState)
    (h : s.streamComponentsInitialized = false) :
    startStreamingLinux true true s = .error "failed to initialize ffmpeg"
      ∧ (startStreamingWin true true s).errorLog =
          "Your GPU does not meet the requirements for video encoding."
            :: s.errorLog
      ∧ (startStreamingWin true true s).encoderStarts = s.encoderStarts + 1
      ∧ (startStreamingWin true true s).streamComponentsInitialized = true := by
  refine ⟨?_, ?_, ?_, ?_⟩ <;>
    simp [startStreamingLinux, startStreamingWin, h]

/-- Witness for C4's amended theorem at the fresh state. -/
theorem encoder_init_failure_fatal_witness :
    (⟨false, 0, 0, 0, []⟩ : StartState).streamComponentsInitialized = false ∧
      startStreamingLinux true true ⟨false, 0, 0, 0, []⟩ =
        .error "failed to initialize ffmpeg" :=
  ⟨rfl, (encoder_init_failure_fatal ⟨false, 0, 0, 0, []⟩ rfl).1⟩

/-! ### FEC-failure handling (`VideoErrorReportReceive`, alvr_server.cpp:258-263) -/

/-- Modelled from the spec: the observable state of `ClientConnection`
(not under src/; only its call sites are).  `OnFecFailure` records the
loss event for the loss-rate estimate, counted here. -/
structure ListenerConn where
  fecFailuresTotal : Nat
deriving DecidableEq, Repr

/-- Modelled from the spec: the observable state of `CEncoder` (not under
src/).  `OnPacketLoss` sets the keyframe-recovery flag so the next cycle
marks its frame job `isKeyframeRequested = true`; `frameIndex` is the
monotonic frame counter. -/
structure EncoderConn where
  keyframeRequested : Bool
  frameIndex : Nat
deriving DecidableEq, Repr

/-- Modelled from the spec: `ClientConnection::OnFecFailure` records a
loss event for the loss-rate estimate. -/
def onFecFailure (l : ListenerConn) : ListenerConn :=
  { l with fecFailuresTotal := l.fecFailuresTotal + 1 }

/-- Modelled from the spec: `CEncoder::OnPacketLoss` enters the
loss-recovery sub-state by setting the keyframe-recovery flag. -/
def onPacketLoss (e : EncoderConn) : EncoderConn :=
  { e with keyframeRequested := true }

/-- Modelled from the spec: the frame job produced by the encoder's next
cycle carries the current keyframe-recovery flag and consumes it. -/
structure FrameJob where
  frameIndex : Nat
  isKeyframeRequested : Bool
deriving DecidableEq, Repr

/-- Modelled from the spec: the next encode cycle emits a `FrameJob`
marked with the pending keyframe-recovery flag, then clears the flag and
increments the frame counter. -/
def nextFrameJob (e : EncoderConn) : FrameJob × EncoderConn :=
  (⟨e.frameIndex, e.keyframeRequested⟩, ⟨false, e.frameIndex + 1⟩)

/-- The provider state reachable from `VideoErrorReportReceive`:
`g_driver_provider.hmd` may be null, and when present its `m_Listener`
and `m_encoder` members may each be null. -/
structure ProviderLoss where
  hmd : Option (Option ListenerConn × Option EncoderConn)
deriving DecidableEq, Repr

/-- `VideoErrorReportReceive` (alvr_server.cpp:258-263): when the hmd and
its listener exist, `m_Listener->OnFecFailure()` and
`m_encoder->OnPacketLoss()` run; the source does not null-check
`m_encoder`, so a missing encoder is a null-pointer dereference, modelled
as `Except.error`. -/
def VideoErrorReportReceive (p : ProviderLoss) : Except String ProviderLoss :=
  match p.hmd with
  | some (some l, enc) =>
      match enc with
      | some e => .ok ⟨some (some (onFecFailure l), some (onPacketLoss e))⟩
      | none => .error "m_encoder nullptr dereference"
  | _ => .ok p

/-- C2: injecting an FEC-failure report mid-stream (hmd, listener and
encoder all present) forwards the loss event to both the listener's
loss-rate estimate and the encode pipeline, and the very next frame job
produced by the encoder has `isKeyframeRequested = true`, regardless of
the encoder's previous flag or cadence. -/
theorem fec_failure_forces_keyframe (l : ListenerConn) (e : EncoderConn)
    (p' : ProviderLoss)
    (h : VideoErrorReportReceive ⟨some (some l, some e)⟩ = .ok p') :
    ∃ l' e', p'.hmd = some (some l', some e')
      ∧ l'.fecFailuresTotal = l.fecFailuresTotal + 1
      ∧ (nextFrameJob e').1.isKeyframeRequested = true := by
  refine ⟨onFecFailure l, onPacketLoss e, ?_, rfl, rfl⟩
  simp [VideoErrorReportReceive] at h
  rw [← h]

/-- Witness for C2 at a concrete mid-stream state with the keyframe flag
initially clear. -/
theorem fec_failure_forces_keyframe_witness :
    ∃ l' e',
      (ProviderLoss.mk
          (some (some (ListenerConn.mk 4), some (EncoderConn.mk true 7)))).hmd
          = some (some l', some e')
        ∧ l'.fecFailuresTotal = (ListenerConn.mk 3).fecFailuresTotal + 1
        ∧ (nextFrameJob e').1.isKeyframeRequested = true :=
  fec_failure_forces_keyframe (ListenerConn.mk 3) (EncoderConn.mk false 7)
    ⟨some (some (ListenerConn.mk 4), some (EncoderConn.mk true 7))⟩ rfl

/-! ### Device paths and inbound event routing
(`DriverProvider::Init`, alvr_server.cpp:67-83; `SetOpenvrProperty`,
`SetBattery`, `SetButton`, alvr_server.cpp:272-306) -/

/-- Modelled from the spec: `HEAD_ID` from `Paths.h` (not under src/), an
opaque path-hash constant; the three device path hashes are pairwise
distinct, modelled as distinct naturals. -/
def HEAD_ID : Nat := 0

/-- Modelled from the spec: `LEFT_HAND_ID` from `Paths.h` (not under
src/). -/
def LEFT_HAND_ID : Nat := 1

/-- Modelled from the spec: `RIGHT_HAND_ID` from `Paths.h` (not under
src/). -/
def RIGHT_HAND_ID : Nat := 2

/-- Modelled from the spec: `LEFT_CONTROLLER_HAPTIC_ID` from `Paths.h`
(not under src/). -/
def LEFT_CONTROLLER_HAPTIC_ID : Nat := 3

/-- Modelled from the spec: `RIGHT_CONTROLLER_HAPTIC_ID` from `Paths.h`
(not under src/). -/
def RIGHT_CONTROLLER_HAPTIC_ID : Nat := 4

/-- Per-device observable state touched by the inbound property and
battery events: the battery gauge/charging pair written by `SetBattery`
and the log of properties passed to `set_prop` by `SetOpenvrProperty`. -/
structure DeviceRecord where
  battery : Option (ℚ × Bool)
  props : List Nat
deriving DecidableEq, Repr

/-- The driver-provider state seen by the inbound event entry points.
`controllersPresent` reflects whether the controller objects were created
(`Settings::m_disableController` false): `DriverProvider::Init` inserts
`HEAD_ID` into `tracked_devices` always and the two hand ids only when
both controllers exist. -/
structure DriverState where
  controllersPresent : Bool
  head : DeviceRecord
  leftHand : DeviceRecord
  rightHand : DeviceRecord
  leftButtons : List (Nat × Int)
  rightButtons : List (Nat × Int)
deriving DecidableEq, Repr

/-- Membership of a top-level path in `g_driver_provider.tracked_devices`
as populated by `DriverProvider::Init`. -/
def trackedDeviceRegistered (s : DriverState) (path : Nat) : Bool :=
  path == HEAD_ID
    || (s.controllersPresent && (path == LEFT_HAND_ID || path == RIGHT_HAND_ID))

/-- `SetOpenvrProperty` (alvr_server.cpp:272-278): look the top-level
path up in `tracked_devices`; when found, forward the property to that
device's `set_prop`; otherwise do nothing. -/
def SetOpenvrProperty (s : DriverState) (path : Nat) (prop : Nat) : DriverState :=
  if path == HEAD_ID then
    { s with head := { s.head with props := prop :: s.head.props } }
  else if s.controllersPresent && path == LEFT_HAND_ID then
    { s with leftHand := { s.leftHand with props := prop :: s.leftHand.props } }
  else if s.controllersPresent && path == RIGHT_HAND_ID then
    { s with rightHand := { s.rightHand with props := prop :: s.rightHand.props } }
  else s

/-- `SetBattery` (alvr_server.cpp:286-295): look the top-level path up in
`tracked_devices`; when found, set the device's battery-percentage and
is-charging properties; otherwise do nothing. -/
def SetBattery (s : DriverState) (path : Nat) (gauge : ℚ) (plugged : Bool) :
    DriverState :=
  if path == HEAD_ID then
    { s with head := { s.head with battery := some (gauge, plugged) } }
  else if s.controllersPresent && path == LEFT_HAND_ID then
    { s with leftHand := { s.leftHand with battery := some (gauge, plugged) } }
  else if s.controllersPresent && path == RIGHT_HAND_ID then
    { s with rightHand := { s.rightHand with battery := some (gauge, plugged) } }
  else s

/-- `SetButton` (alvr_server.cpp:297-306): a path found in
`LEFT_CONTROLLER_BUTTON_IDS` is forwarded to
`left_controller->SetButton` and one found in
`RIGHT_CONTROLLER_BUTTON_IDS` to `right_controller->SetButton` — with no
null check on the controller, so a button path while the controllers are
disabled dereferences a null pointer (`Except.error`); any other path
falls through both branches and nothing happens.  The two button-id lists
come from `Paths.h` (not under src/) and are passed as parameters. -/
def SetButton (leftIds rightIds : List Nat) (s : DriverState) (path : Nat)
    (v : Int) : Except String DriverState :=
  if path ∈ leftIds then
    if s.controllersPresent then
      .ok { s with leftButtons := (path, v) :: s.leftButtons }
    else .error "left_controller nullptr dereference"
  else if path ∈ rightIds then
    if s.controllersPresent then
      .ok { s with rightButtons := (path, v) :: s.rightButtons }
    else .error "right_controller nullptr dereference"
  else .ok s

/-- C5: an inbound event naming an unrecognized device — a button path in
neither controller's button-id list, or a property/battery top-level path
not registered in `tracked_devices` — is dropped as a no-op: the state is
returned unchanged and no operation faults, including when the
controllers are disabled and no controller object exists. -/
theorem unknown_device_event_noop (leftIds rightIds : List Nat)
    (s : DriverState) (path : Nat) (v : Int) (g : ℚ) (pl : Bool) (prop : Nat)
    (hbl : path ∉ leftIds) (hbr : path ∉ rightIds)
    (hreg : trackedDeviceRegistered s path = false) :
    SetButton leftIds rightIds s path v = .ok s
      ∧ SetOpenvrProperty s path prop = s
      ∧ SetBattery s path g pl = s := by
  have hhead : (path == HEAD_ID) = false := by
    cases hEq : path == HEAD_ID
    · rfl
    · simp [trackedDeviceRegistered, hEq] at hreg
  have hleft : (s.controllersPresent && (path == LEFT_HAND_ID)) = false := by
    cases hc : s.controllersPresent
    · simp
    · cases hEq : path == LEFT_HAND_ID
      · simp
      · simp [trackedDeviceRegistered, hc, hEq] at hreg
  have hright : (s.controllersPresent && (path == RIGHT_HAND_ID)) = false := by
    cases hc : s.controllersPresent
    · simp
    · cases hEq : path == RIGHT_HAND_ID
      · simp
      · simp [trackedDeviceRegistered, hc, hEq] at hreg
  refine ⟨?_, ?_, ?_⟩
  · simp [SetButton, hbl, hbr]
  · simp [SetOpenvrProperty, hhead, hleft, hright]
  · simp [SetBattery, hhead, hleft, hright]

/-- Witness for C5: path hash 99 is unknown to a state with controllers
disabled and concrete button-id lists. -/
theorem unknown_device_event_noop_witness :
    (99 ∉ [10, 11] ∧ 99 ∉ [20, 21]
        ∧ trackedDeviceRegistered
            ⟨false, ⟨none, []⟩, ⟨none, []⟩, ⟨none, []⟩, [], []⟩ 99 = false)
      ∧ SetButton [10, 11] [20, 21]
            ⟨false, ⟨none, []⟩, ⟨none, []⟩, ⟨none, []⟩, [], []⟩ 99 1 =
          .ok ⟨false, ⟨none, []⟩, ⟨none, []⟩, ⟨none, []⟩, [], []⟩
        ∧ SetOpenvrProperty
              ⟨false, ⟨none, []⟩, ⟨none, []⟩, ⟨none, []⟩, [], []⟩ 99 5 =
            ⟨false, ⟨none, []⟩, ⟨none, []⟩, ⟨none, []⟩, [], []⟩
          ∧ SetBattery ⟨false, ⟨none, []⟩, ⟨none, []⟩, ⟨none, []⟩, [], []⟩
                99 (1/2) true =
              ⟨false, ⟨none, []⟩, ⟨none, []⟩, ⟨none, []⟩, [], []⟩ := by
  refine ⟨⟨by decide, by decide, by decide⟩, ?_⟩
  exact unknown_device_event_noop [10, 11] [20, 21]
    ⟨false, ⟨none, []⟩, ⟨none, []⟩, ⟨none, []⟩, [], []⟩ 99 1 (1/2) true 5
    (by decide) (by decide) (by decide)

/-! ### Tracking ingestion (`SetTracking`, alvr_server.cpp:231-251;
`OvrHmd::OnPoseUpdated`, OvrHMD.cpp:307-346) -/

/-- One entry of the `deviceMotions` array passed to `SetTracking`:
the device path hash and an abstract payload index standing for the
pose/velocity data. -/
structure DeviceMotion where
  deviceID : Nat
  payload : Nat
deriving DecidableEq, Repr

/-- The observable sink that a routed motion reaches:
`PoseHistory::OnPoseUpdated` (called by `OvrHmd::OnPoseUpdated`),
`left_controller->onPoseUpdate`, or `right_controller->onPoseUpdate`. -/
inductive RouteEvent
  | poseHistoryRecord (targetTimestampNs : Nat) (payload : Nat)
  | leftControllerPose (payload : Nat)
  | rightControllerPose (payload : Nat)
deriving DecidableEq, Repr

/-- Routing of a single motion by the loop body of `SetTracking`:
`deviceID == HEAD_ID && hmd` dispatches to `OvrHmd::OnPoseUpdated`, which
(when the device has been activated, `object_id` valid) records the
motion in `PoseHistory`; otherwise `deviceID == LEFT_HAND_ID` /
`RIGHT_HAND_ID` with the corresponding controller present dispatch
directly to that controller's pose sink; anything else is ignored. -/
def routeMotion (hmdPresent hmdActivated leftPresent rightPresent : Bool)
    (targetTimestampNs : Nat) (m : DeviceMotion) : List RouteEvent :=
  if m.deviceID == HEAD_ID && hmdPresent then
    if hmdActivated then [.poseHistoryRecord targetTimestampNs m.payload] else []
  else if m.deviceID == LEFT_HAND_ID && leftPresent then
    [.leftControllerPose m.payload]
  else if m.deviceID == RIGHT_HAND_ID && rightPresent then
    [.rightControllerPose m.payload]
  else []

/-- `SetTracking`: route every entry of the `deviceMotions` batch in
order, collecting the events delivered to the three sinks. -/
def SetTracking (hmdPresent hmdActivated leftPresent rightPresent : Bool)
    (targetTimestampNs : Nat) (motions : List DeviceMotion) : List RouteEvent :=
  motions.flatMap
    (routeMotion hmdPresent hmdActivated leftPresent rightPresent targetTimestampNs)

/-- C6: with the HMD present and activated and both controllers present,
every head motion in the batch is recorded into `PoseHistory`, every
left- and right-hand motion reaches its own controller pose sink, every
`PoseHistory` record in the trace originates from a head motion (hand
motions never enter `PoseHistory`), and a motion with any other device
identifier produces no event at all. -/
theorem tracking_routing (ts : Nat) (ms : List DeviceMotion) :
    (∀ m ∈ ms, m.deviceID = HEAD_ID →
        RouteEvent.poseHistoryRecord ts m.payload ∈ SetTracking true true true true ts ms)
      ∧ (∀ m ∈ ms, m.deviceID = LEFT_HAND_ID →
          RouteEvent.leftControllerPose m.payload ∈ SetTracking true true true true ts ms)
      ∧ (∀ m ∈ ms, m.deviceID = RIGHT_HAND_ID →
          RouteEvent.rightControllerPose m.payload ∈ SetTracking true true true true ts ms)
      ∧ (∀ t p, RouteEvent.poseHistoryRecord t p ∈ SetTracking true true true true ts ms →
          ∃ m ∈ ms, m.deviceID = HEAD_ID ∧ m.payload = p ∧ t = ts)
      ∧ (∀ m : DeviceMotion, m.deviceID ≠ HEAD_ID → m.deviceID ≠ LEFT_HAND_ID →
          m.deviceID ≠ RIGHT_HAND_ID → routeMotion true true true true ts m = []) := by
  refine ⟨?_, ?_, ?_, ?_, ?_⟩
  · intro m hm hid
    simp [SetTracking, List.mem_flatMap]
    exact ⟨m, hm, by simp [routeMotion, hid]⟩
  · intro m hm hid
    simp [SetTracking, List.mem_flatMap]
    exact ⟨m, hm, by simp [routeMotion, hid, HEAD_ID, LEFT_HAND_ID]⟩
  · intro m hm hid
    simp [SetTracking, List.mem_flatMap]
    exact ⟨m, hm, by simp [routeMotion, hid, HEAD_ID, LEFT_HAND_ID, RIGHT_HAND_ID]⟩
  · intro t p hmem
    simp [SetTracking, List.mem_flatMap] at hmem
    obtain ⟨m, hm, hev⟩ := hmem
    refine ⟨m, hm, ?_⟩
    by_cases h1 : m.deviceID = HEAD_ID
    · simp [routeMotion, h1] at hev
      exact ⟨h1, hev.2.symm, hev.1⟩
    · by_cases h2 : m.deviceID = LEFT_HAND_ID
      · simp [routeMotion, h1, h2, HEAD_ID, LEFT_HAND_ID] at hev
      · by_cases h3 : m.deviceID = RIGHT_HAND_ID
        · simp [routeMotion, h1, h2, h3, HEAD_ID, LEFT_HAND_ID, RIGHT_HAND_ID] at hev
        · simp [routeMotion, h1, h2, h3] at hev
  · intro m h1 h2 h3
    simp [routeMotion, h1, h2, h3]

/-- Witness for C6 at a concrete three-motion batch: the head motion is
recorded into `PoseHistory` and the left-hand motion reaches the left
controller's sink. -/
theorem tracking_routing_witness :
    RouteEvent.poseHistoryRecord 100 7 ∈
        SetTracking true true true true 100
          [⟨HEAD_ID, 7⟩, ⟨LEFT_HAND_ID, 8⟩, ⟨RIGHT_HAND_ID, 9⟩]
      ∧ RouteEvent.leftControllerPose 8 ∈
          SetTracking true true true true 100
            [⟨HEAD_ID, 7⟩, ⟨LEFT_HAND_ID, 8⟩, ⟨RIGHT_HAND_ID, 9⟩] := by
  constructor
  · exact (tracking_routing 100
        [⟨HEAD_ID, 7⟩, ⟨LEFT_HAND_ID, 8⟩, ⟨RIGHT_HAND_ID, 9⟩]).1
        ⟨HEAD_ID, 7⟩ (by simp) rfl
  · exact (tracking_routing 100
        [⟨HEAD_ID, 7⟩, ⟨LEFT_HAND_ID, 8⟩, ⟨RIGHT_HAND_ID, 9⟩]).2.1
        ⟨LEFT_HAND_ID, 8⟩ (by simp) rfl

/-! ### Haptics routing (`DriverProvider::RunFrame`, alvr_server.cpp:129-137) -/

/-- One inbound `VREvent_HapticVibration_t`: the property-container
handle identifying the emitting device, and the raw duration and
frequency fields.  (The amplitude field feeds the real-exponent `pow`
curve of `RunFrame`; no claim under proof refers to its value, so it is
not carried here.) -/
structure HapticsEvent where
  containerHandle : Nat
  fDurationSeconds : ℚ
  fFrequency : ℚ
deriving DecidableEq, Repr

/-- The guard `this->left_controller && haptics_info.containerHandle ==
this->left_controller->prop_container` of `RunFrame`: a null controller
never matches. -/
def controllerMatches (propContainer : Option Nat) (handle : Nat) : Bool :=
  match propContainer with
  | some pc => handle == pc
  | none => false

/-- The if / else-if dispatch of `RunFrame`: the left controller is
tested first, then the right; the selected `HapticsSend` path id, or
`none` when neither container handle matches. -/
def runFrameHapticTarget (leftContainer rightContainer : Option Nat)
    (handle : Nat) : Option Nat :=
  if controllerMatches leftContainer handle then some LEFT_CONTROLLER_HAPTIC_ID
  else if controllerMatches rightContainer handle then some RIGHT_CONTROLLER_HAPTIC_ID
  else none

/-- The `HapticsSend` calls emitted by `RunFrame` for one haptic
vibration event: the routed path id with the shaped duration
(`shapeHapticDuration` with the configured `m_hapticsMinDuration`) and
the event's frequency, or no call at all. -/
def runFrameHaptics (leftContainer rightContainer : Option Nat)
    (hapticsMinDuration : ℚ) (ev : HapticsEvent) : List (Nat × ℚ × ℚ) :=
  match runFrameHapticTarget leftContainer rightContainer ev.containerHandle with
  | some id =>
      [(id, shapeHapticDuration hapticsMinDuration ev.fDurationSeconds, ev.fFrequency)]
  | none => []

/-- C7: with both controllers registered under distinct property
containers, a haptic event whose container handle equals the left
controller's container produces exactly one send, to the left haptic
path; one matching the right container produces exactly one send, to the
right haptic path; a handle matching neither (or with no controller
registered) produces no send at all. -/
theorem haptics_container_routing (lc rc : Nat) (m : ℚ) (ev : HapticsEvent)
    (hne : lc ≠ rc) :
    (ev.containerHandle = lc →
        runFrameHaptics (some lc) (some rc) m ev =
          [(LEFT_CONTROLLER_HAPTIC_ID,
            shapeHapticDuration m ev.fDurationSeconds, ev.fFrequency)])
      ∧ (ev.containerHandle = rc →
          runFrameHaptics (some lc) (some rc) m ev =
            [(RIGHT_CONTROLLER_HAPTIC_ID,
              shapeHapticDuration m ev.fDurationSeconds, ev.fFrequency)])
      ∧ (ev.containerHandle ≠ lc → ev.containerHandle ≠ rc →
          runFrameHaptics (some lc) (some rc) m ev = [])
      ∧ runFrameHaptics none none m ev = [] := by
  refine ⟨?_, ?_, ?_, ?_⟩
  · intro h
    simp [runFrameHaptics, runFrameHapticTarget, controllerMatches, h]
  · intro h
    have hrl : rc ≠ lc := fun hEq => hne hEq.symm
    simp [runFrameHaptics, runFrameHapticTarget, controllerMatches, h, hrl]
  · intro hl hr
    simp [runFrameHaptics, runFrameHapticTarget, controllerMatches, hl, hr]
  · simp [runFrameHaptics, runFrameHapticTarget, controllerMatches]

/-- Witness for C7 at concrete containers 11 (left) and 22 (right) and a
right-matching event. -/
theorem haptics_container_routing_witness :
    (11 : Nat) ≠ 22 ∧
      runFrameHaptics (some 11) (some 22) 1 ⟨22, 0, 60⟩ =
        [(RIGHT_CONTROLLER_HAPTIC_ID, shapeHapticDuration 1 0, 60)] :=
  ⟨by decide,
    (haptics_container_routing 11 22 1 ⟨22, 0, 60⟩ (by decide)).2.1 rfl⟩

/-! ### Bitrate control (`SetBitrateParameters`, alvr_server.cpp:308-320) -/

/-- The bitrate fields of `Statistics` touched by `SetBitrateParameters`
(bitrates in megabits per second, as the `unsigned long long` arguments). -/
structure Statistics where
  m_enableAdaptiveBitrate : Bool
  m_adaptiveBitrateMaximum : Nat
  m_bitrate : Nat
deriving DecidableEq, Repr

/-- `SetBitrateParameters`: the provider state is
`g_driver_provider.hmd` (outer `Option`) holding `m_Listener` (inner
`Option`) holding its `m_Statistics`.  With both present: adaptive mode
sets the enable flag and the adaptive maximum; fixed mode clears the
flag and sets the fixed bitrate.  With either missing, nothing happens. -/
def SetBitrateParameters (st : Option (Option Statistics)) (bitrate_mbs : Nat)
    (adaptive_bitrate_enabled : Bool) (bitrate_max : Nat) :
    Option (Option Statistics) :=
  match st with
  | some (some stats) =>
      if adaptive_bitrate_enabled then
        some (some { stats with
                       m_enableAdaptiveBitrate := true,
                       m_adaptiveBitrateMaximum := bitrate_max })
      else
        some (some { stats with
                       m_enableAdaptiveBitrate := false,
                       m_bitrate := bitrate_mbs })
  | _ => st

/-- One frame's network feedback consumed by the adaptive-bitrate loop. -/
structure NetworkFeedback where
  latencyUs : Nat
  wasLost : Bool
deriving DecidableEq, Repr

/-- Modelled from the spec: the adaptive-bitrate adjustment step of the
`ClientConnection`/`Statistics` feedback loop, which is not under src/
(only the parameter setter is).  Per §4.2, when adaptive mode is enabled
the raw AIMD update (an arbitrary function `raw` of the current bitrate
and the feedback, since the spec treats the exact curve as tunable) is
clamped to `[minBitrate, m_adaptiveBitrateMaximum]`; in fixed mode the
feedback changes nothing. -/
def adjustBitrate (minBitrate : Nat) (raw : Nat → NetworkFeedback → Nat)
    (stats : Statistics) (fb : NetworkFeedback) : Statistics :=
  if stats.m_enableAdaptiveBitrate then
    { stats with
        m_bitrate :=
          min stats.m_adaptiveBitrateMaximum
            (max minBitrate (raw stats.m_bitrate fb)) }
  else stats

lemma adjustBitrate_foldl_invariant (minBitrate : Nat)
    (raw : Nat → NetworkFeedback → Nat) (M : Nat) :
    ∀ (fbs : List NetworkFeedback) (stats : Statistics),
      stats.m_enableAdaptiveBitrate = true →
      stats.m_adaptiveBitrateMaximum = M →
      (List.foldl (adjustBitrate minBitrate raw) stats fbs).m_enableAdaptiveBitrate = true
        ∧ (List.foldl (adjustBitrate minBitrate raw) stats fbs).m_adaptiveBitrateMaximum = M
        ∧ (fbs ≠ [] → minBitrate ≤ M →
            minBitrate ≤ (List.foldl (adjustBitrate minBitrate raw) stats fbs).m_bitrate
              ∧ (List.foldl (adjustBitrate minBitrate raw) stats fbs).m_bitrate ≤ M) := by
  intro fbs
  induction fbs with
  | nil =>
      intro stats hen hmax
      exact ⟨hen, hmax, fun hne _ => absurd rfl hne⟩
  | cons fb rest ih =>
      intro stats hen hmax
      have hstep : adjustBitrate minBitrate raw stats fb =
          { stats with
              m_bitrate :=
                min stats.m_adaptiveBitrateMaximum
                  (max minBitrate (raw stats.m_bitrate fb)) } := by
        simp [adjustBitrate, hen]
      have hen' : (adjustBitrate minBitrate raw stats fb).m_enableAdaptiveBitrate = true := by
        rw [hstep]; exact hen
      have hmax' : (adjustBitrate minBitrate raw stats fb).m_adaptiveBitrateMaximum = M := by
        rw [hstep]; exact hmax
      obtain ⟨h1, h2, h3⟩ := ih (adjustBitrate minBitrate raw stats fb) hen' hmax'
      refine ⟨by simpa using h1, by simpa using h2, ?_⟩
      intro _ hle
      cases hrest : rest with
      | nil =>
          simp [hrest]
          rw [hstep]
          constructor
          · exact le_min (hmax ▸ hle) (le_max_left _ _)
          · exact hmax ▸ min_le_left _ _
      | cons r rs =>
          have := h3 (by simp [hrest]) hle
          simpa [hrest] using this

/-- C8: once `SetBitrateParameters` has installed adaptive mode with an
operator-configured maximum `M ≥ minBitrate`, every nonempty sequence of
loss/latency feedback processed by the (spec-modelled) adaptive
adjustment loop leaves the bitrate inside the closed interval
`[minBitrate, M]`, for any raw AIMD update function. -/
theorem adaptive_bitrate_bounds (minBitrate M mbs : Nat)
    (raw : Nat → NetworkFeedback → Nat) (stats0 stats1 : Statistics)
    (fb : NetworkFeedback) (fbs : List NetworkFeedback)
    (hinstall : SetBitrateParameters (some (some stats0)) mbs true M =
        some (some stats1))
    (hle : minBitrate ≤ M) :
    minBitrate ≤
        (List.foldl (adjustBitrate minBitrate raw) stats1 (fb :: fbs)).m_bitrate
      ∧ (List.foldl (adjustBitrate minBitrate raw) stats1 (fb :: fbs)).m_bitrate ≤ M := by
  have hstats1 : stats1 =
      { stats0 with
          m_enableAdaptiveBitrate := true,
          m_adaptiveBitrateMaximum := M } := by
    simp [SetBitrateParameters] at hinstall
    exact hinstall.symm
  have := adjustBitrate_foldl_invariant minBitrate raw M (fb :: fbs) stats1
    (by rw [hstats1]) (by rw [hstats1])
  exact this.2.2 (by simp) hle

/-- Witness for C8: one step of feedback from a freshly installed
adaptive configuration with floor 1 and ceiling 10, where the raw update
overshoots to 100 but the clamp holds the bitrate at 10. -/
theorem adaptive_bitrate_bounds_witness :
    (SetBitrateParameters (some (some ⟨false, 0, 30⟩)) 30 true 10 =
        some (some ⟨true, 10, 30⟩))
      ∧ (1 : Nat) ≤ 10
      ∧ 1 ≤ (List.foldl (adjustBitrate 1 (fun _ _ => 100)) ⟨true, 10, 30⟩
              [⟨5000, true⟩]).m_bitrate
      ∧ (List.foldl (adjustBitrate 1 (fun _ _ => 100)) ⟨true, 10, 30⟩
            [⟨5000, true⟩]).m_bitrate ≤ 10 := by
  refine ⟨by decide, by decide, ?_⟩
  exact adaptive_bitrate_bounds 1 10 30 (fun _ _ => 100) ⟨false, 0, 30⟩
    ⟨true, 10, 30⟩ ⟨5000, true⟩ [] (by decide) (by decide)

/-- C10: `SetBitrateParameters` touches only the selected mode's fields.
In adaptive mode it sets the enable flag and the adaptive maximum and
leaves the fixed bitrate unchanged; in fixed mode it clears the flag and
sets the fixed bitrate and leaves the adaptive maximum unchanged; with a
null hmd or a null listener the whole state is returned unchanged. -/
theorem set_bitrate_parameters_frame_effect (stats : Statistics)
    (mbs bmax : Nat) :
    SetBitrateParameters (some (some stats)) mbs true bmax =
        some (some { stats with
                       m_enableAdaptiveBitrate := true,
                       m_adaptiveBitrateMaximum := bmax,
                       m_bitrate := stats.m_bitrate })
      ∧ SetBitrateParameters (some (some stats)) mbs false bmax =
          some (some { stats with
                         m_enableAdaptiveBitrate := false,
                         m_adaptiveBitrateMaximum := stats.m_adaptiveBitrateMaximum,
                         m_bitrate := mbs })
      ∧ SetBitrateParameters (some none) mbs true bmax = some none
      ∧ SetBitrateParameters (some none) mbs false bmax = some none
      ∧ SetBitrateParameters none mbs true bmax = none
      ∧ SetBitrateParameters none mbs false bmax = none :=
  ⟨rfl, rfl, rfl, rfl, rfl, rfl⟩

/-! ### Pose history ingestion (`PoseHistory::OnPoseUpdated`; only the
call site at OvrHMD.cpp:326 is under src/) -/

/-- One stored pose sample: the target timestamp and an abstract payload
index standing for the pose data. -/
structure PoseSample where
  timestampNs : Nat
  payload : Nat
deriving DecidableEq, Repr

/-- Modelled from the spec: the `PoseHistory` buffer (implementation not
under src/), newest sample first. -/
structure PoseHistory where
  samples : List PoseSample
deriving DecidableEq, Repr

/-- Modelled from the spec: `PoseHistory::OnPoseUpdated` stores a sample
only when its timestamp is strictly greater than the most recent
recorded timestamp; an earlier or duplicate timestamp is dropped,
returning the buffer unchanged (a total function — the drop never
throws). -/
def PoseHistory.record (h : PoseHistory) (ts : Nat) (p : Nat) : PoseHistory :=
  match h.samples with
  | [] => ⟨[⟨ts, p⟩]⟩
  | latest :: _ =>
      if latest.timestampNs < ts then ⟨⟨ts, p⟩ :: h.samples⟩ else h

/-- The monotonicity invariant: timestamps strictly decrease from the
newest sample to the oldest. -/
def PoseHistory.monotone (h : PoseHistory) : Prop :=
  h.samples.Pairwise (fun a b => b.timestampNs < a.timestampNs)

instance (h : PoseHistory) : Decidable h.monotone := by
  unfold PoseHistory.monotone
  infer_instance

/-- Replaying a sequence of `record` calls against a starting buffer. -/
def PoseHistory.replay (h : PoseHistory) (calls : List (Nat × Nat)) : PoseHistory :=
  calls.foldl (fun acc c => PoseHistory.record acc c.1 c.2) h

lemma PoseHistory.record_preserves_monotone (h : PoseHistory) (ts p : Nat)
    (hmono : h.monotone) : (h.record ts p).monotone := by
  obtain ⟨samples⟩ := h
  unfold PoseHistory.monotone at hmono ⊢
  cases samples with
  | nil => simp [PoseHistory.record]
  | cons latest rest =>
      by_cases hlt : latest.timestampNs < ts
      · have hrec : (PoseHistory.mk (latest :: rest)).record ts p =
            ⟨⟨ts, p⟩ :: latest :: rest⟩ := by
          simp [PoseHistory.record, hlt]
        rw [hrec]
        refine List.pairwise_cons.mpr ⟨?_, hmono⟩
        intro b hb
        rcases List.mem_cons.mp hb with hb1 | hb2
        · exact hb1 ▸ hlt
        · exact lt_trans ((List.pairwise_cons.mp hmono).1 b hb2) hlt
      · have hrec : (PoseHistory.mk (latest :: rest)).record ts p =
            ⟨latest :: rest⟩ := by
          simp [PoseHistory.record, hlt]
        rw [hrec]
        exact hmono

lemma PoseHistory.replay_monotone (calls : List (Nat × Nat)) :
    ∀ h : PoseHistory, h.monotone → (h.replay calls).monotone := by
  induction calls with
  | nil => intro h hm; simpa [PoseHistory.replay] using hm
  | cons c rest ih =>
      intro h hm
      have := ih (h.record c.1 c.2) (h.record_preserves_monotone c.1 c.2 hm)
      simpa [PoseHistory.replay] using this

/-- C9: for every sequence of `record` calls starting from the empty
buffer, the retained samples have strictly decreasing timestamps from
newest to oldest — only samples strictly newer than the latest accepted
one are kept; and a `record` whose timestamp is not strictly greater
than the newest stored timestamp returns the buffer entirely unchanged
(and, being total, never throws). -/
theorem pose_history_monotonic (calls : List (Nat × Nat)) :
    (PoseHistory.replay ⟨[]⟩ calls).monotone
      ∧ (∀ (h : PoseHistory) (latest : PoseSample) (rest : List PoseSample)
          (ts p : Nat), h.samples = latest :: rest → ts ≤ latest.timestampNs →
            h.record ts p = h) := by
  constructor
  · exact PoseHistory.replay_monotone calls ⟨[]⟩ (by simp [PoseHistory.monotone])
  · intro h latest rest ts p hs hle
    unfold PoseHistory.record
    rw [hs]
    simp [not_lt.mpr hle]

/-- Witness for C9 at the call sequence
`record 5, record 9 (accepted), record 9 (duplicate), record 3 (stale)`:
the final buffer is monotone, and a duplicate-timestamp record on the
concrete buffer `[9, 5]` is the identity. -/
theorem pose_history_monotonic_witness :
    (PoseHistory.replay ⟨[]⟩ [(5, 0), (9, 1), (9, 2), (3, 3)]).monotone
      ∧ (PoseHistory.mk [⟨9, 1⟩, ⟨5, 0⟩]).record 9 2 =
          PoseHistory.mk [⟨9, 1⟩, ⟨5, 0⟩] := by
  constructor
  · exact (pose_history_monotonic [(5, 0), (9, 1), (9, 2), (3, 3)]).1
  · exact (pose_history_monotonic [(5, 0), (9, 1), (9, 2), (3, 3)]).2
      (PoseHistory.mk [⟨9, 1⟩, ⟨5, 0⟩]) ⟨9, 1⟩ [⟨5, 0⟩] 9 2 rfl (by decide)

end ALVR
